import Mathlib

/-!
Verification development for the adaptive ingestion and quality-analysis
pipeline of the Filescope_AI repository.

The embedding models the pure analysis core:
- the smart content sniffer and tabular coercer
  (backend/core_ai/views.py, function smart_file_parser, together with
  flatten_json_object and parse_analysis_report),
- the quality scorer (analyze_dataset_smart, calculate_base_quality_score,
  calculate_completeness_score, calculate_consistency_score, get_score_grade),
- the anomaly detector and bias analyzer (backend/core_ai/tasks.py,
  functions detect_anomalies and analyze_bias).

Python floats are modelled by rationals, Python round(x, n) by
round-half-to-even at n decimal digits, pandas DataFrames by an explicit
list of typed columns.  File bytes are modelled at the decoded-text level
(the code decodes bytes with errors ignored before all text probes), so the
binary spreadsheet and docx readers, which can never succeed on decoded
text re-encoded as text, are modelled as always failing.  The isolation
forest of sklearn is an external, seeded, stochastic library call; it is
modelled as an explicit parameter giving the per-row anomaly flags, and
everything downstream of those flags is translated from the source.
-/

set_option allowUnsafeReducibility true
attribute [local semireducible] Rat.add Rat.mul Rat.inv Rat.sub

/-! ## Character-list helpers (Python str operations) -/

/-- Newline character. -/
def nlChar : Char := Char.ofNat 10

/-- Double-quote character. -/
def qChar : Char := Char.ofNat 34

/-- Backslash character. -/
def bsChar : Char := Char.ofNat 92

/-- Python s.split(chr(10)): split on newlines, never empty, keeps empty pieces. -/
def splitOnNl : List Char → List (List Char)
  | [] => [[]]
  | c :: cs =>
    if c = nlChar then [] :: splitOnNl cs
    else
      match splitOnNl cs with
      | [] => [[c]]
      | l :: ls => (c :: l) :: ls

/-- Python str.strip() (leading and trailing whitespace removed). -/
def trimL (l : List Char) : List Char :=
  ((l.dropWhile Char.isWhitespace).reverse.dropWhile Char.isWhitespace).reverse

/-- Python line.count(c). -/
def countChar (l : List Char) (c : Char) : ℕ :=
  (l.filter (fun x => x = c)).length

/-- Split a char list on one character, keeping empty pieces (Python str.split(c)). -/
def splitOnChar (c : Char) : List Char → List (List Char)
  | [] => [[]]
  | x :: xs =>
    if x = c then [] :: splitOnChar c xs
    else
      match splitOnChar c xs with
      | [] => [[x]]
      | l :: ls => (x :: l) :: ls

/-- Python s.split(c, 1): split on the first occurrence only. -/
def splitFirst (c : Char) (l : List Char) : Option (List Char × List Char) :=
  match l.span (fun x => x ≠ c) with
  | (_, []) => none
  | (a, _ :: b) => some (a, b)

/-- Python str.strip(chr(34)): strip leading and trailing double quotes. -/
def stripQuotes (l : List Char) : List Char :=
  ((l.dropWhile (fun c => c = qChar)).reverse.dropWhile (fun c => c = qChar)).reverse

/-- Does the char list contain the pattern as a contiguous subsequence
(Python: pat in s)?  Checked by testing every suffix. -/
def containsSeq (pat : List Char) : List Char → Bool
  | [] => pat.isPrefixOf []
  | c :: cs => pat.isPrefixOf (c :: cs) || containsSeq pat cs

/-- String from a char list. -/
def strOf (l : List Char) : String := String.mk l

/-- Python str.lower() combined with replacing spaces by underscores,
as in line.lower().replace(chr(32), chr(95)). -/
def lowerUnderscore (s : String) : String :=
  strOf (s.toList.map (fun c => if c = ' ' then Char.ofNat 95 else c.toLower))

/-! ## Python round and the tabular data model -/

/-- Python round to the nearest integer, ties to even (banker rounding),
on exact rationals. -/
def pyRoundInt (x : ℚ) : ℤ :=
  if x - ⌊x⌋ < 1/2 then ⌊x⌋
  else if 1/2 < x - ⌊x⌋ then ⌊x⌋ + 1
  else if ⌊x⌋ % 2 = 0 then ⌊x⌋ else ⌊x⌋ + 1

/-- Python round(x, 1). -/
def round1 (x : ℚ) : ℚ := ((pyRoundInt (10 * x) : ℤ) : ℚ) / 10

/-- Python round(x, 2). -/
def round2 (x : ℚ) : ℚ := ((pyRoundInt (100 * x) : ℤ) : ℚ) / 100

/-- A cell of the coerced table: numeric, text, boolean or null (NaN/None). -/
inductive Cell where
  | num (q : ℚ)
  | str (s : String)
  | boolC (b : Bool)
  | null
deriving DecidableEq, Repr

/-- Is the cell null (pandas isnull)? -/
def Cell.isNull : Cell → Bool
  | .null => true
  | _ => false

/-- Is the cell numeric? -/
def Cell.isNum : Cell → Bool
  | .num _ => true
  | _ => false

/-- Is the cell boolean? -/
def Cell.isBool : Cell → Bool
  | .boolC _ => true
  | _ => false

/-- The pandas dtype classes the analysis code distinguishes:
object (text), numeric (np.number) and bool. -/
inductive Dtype where
  | object
  | numeric
  | boolean
deriving DecidableEq, Repr

/-- Pandas dtype inference for a freshly built column: a column whose
values are numbers, or numbers with missing entries, is numeric (int64 or
float64); an all-bool column is bool; everything else, including an
all-None column, is object. -/
def inferDtype (cells : List Cell) : Dtype :=
  if !cells.isEmpty && cells.all (fun c => c.isNum || c.isNull) && cells.any (fun c => c.isNum) then
    Dtype.numeric
  else if !cells.isEmpty && cells.all (fun c => c.isBool) then
    Dtype.boolean
  else Dtype.object

/-- A named, typed column of the coerced table. -/
structure Column where
  name : String
  dtype : Dtype
  cells : List Cell
deriving DecidableEq, Repr

/-- Build a column with pandas dtype inference. -/
def mkCol (name : String) (cells : List Cell) : Column :=
  ⟨name, inferDtype cells, cells⟩

/-- The coerced table: ordered columns plus the row count
(pandas len(df)); every well-formed table has cells.length = nrows in
each column. -/
structure DataFrame where
  cols : List Column
  nrows : ℕ
deriving DecidableEq, Repr

/-- Pandas df.empty: true when either axis has length zero. -/
def DataFrame.isEmptyDF (df : DataFrame) : Bool :=
  df.nrows == 0 || df.cols.isEmpty

/-- Well-formedness: every column has exactly nrows cells. -/
def DataFrame.WF (df : DataFrame) : Prop :=
  ∀ c ∈ df.cols, c.cells.length = df.nrows

/-- Total missing (null) cells, pandas df.isnull().sum().sum(). -/
def missingCells (df : DataFrame) : ℕ :=
  (df.cols.map (fun c => (c.cells.filter (fun x => x.isNull)).length)).sum

/-- Non-null cells of a column (pandas dropna). -/
def nonNullCells (c : Column) : List Cell :=
  c.cells.filter (fun x => !x.isNull)

/-- Distinct values in first-appearance order; its length is pandas nunique
over the given cells. -/
def distinctsInOrder (l : List Cell) : List Cell :=
  l.foldl (fun acc c => if c ∈ acc then acc else acc ++ [c]) []

/-! ## Structural issues and the quality scorer (views.py) -/

/-- Issue severities used by the sniffer. -/
inductive Severity where
  | high
  | medium
  | low
  | info
deriving DecidableEq, Repr

/-- A structural issue recorded while coercing the file. -/
structure Issue where
  type : String
  severity : Severity
  message : String
  recommendation : String
deriving DecidableEq, Repr

/-- Penalty of one issue: high 10, medium 5, anything else 1
(views.py analyze_dataset_smart). -/
def issuePenaltyOf : Severity → ℕ
  | .high => 10
  | .medium => 5
  | _ => 1

/-- Total issue penalty: sum of 10 / 5 / 1 per issue severity
(views.py, analyze_dataset_smart lines 1015-1016). -/
def issue_penalty (file_issues : List Issue) : ℕ :=
  (file_issues.map (fun i => issuePenaltyOf i.severity)).sum

/-- Per-column consistency contribution (views.py
calculate_consistency_score): object columns with at least one non-null
value contribute (1 - unique_ratio) * 100 when the unique ratio exceeds
0.8 and 80 otherwise; object columns with no non-null values contribute
nothing; every other column contributes 90. -/
def colConsistency (c : Column) : Option ℚ :=
  if c.dtype = Dtype.object then
    let nn := nonNullCells c
    if 0 < nn.length then
      let ratio : ℚ := ((distinctsInOrder nn).length : ℚ) / (nn.length : ℚ)
      some (if ratio > 8/10 then (1 - ratio) * 100 else 80)
    else none
  else some 90

/-- Views.py calculate_consistency_score: 0 for an empty frame, else the
1-decimal-rounded mean of the per-column contributions, defaulting to 50
when no column contributes. -/
def calculate_consistency_score (df : DataFrame) : ℚ :=
  if df.isEmptyDF then 0
  else
    let scores := df.cols.filterMap colConsistency
    if scores.isEmpty then 50
    else round1 (scores.sum / (scores.length : ℚ))

/-- Unrounded completeness, (1 - missing/total_cells) * 100, used inside
calculate_base_quality_score. -/
def completenessRaw (df : DataFrame) : ℚ :=
  (1 - (missingCells df : ℚ) / ((df.nrows : ℚ) * (df.cols.length : ℚ))) * 100

/-- Views.py calculate_completeness_score. -/
def calculate_completeness_score (df : DataFrame) : ℚ :=
  if df.isEmptyDF then 0
  else round1 (completenessRaw df)

/-- Views.py calculate_base_quality_score: 0 for an empty frame, else
round((completeness + consistency) / 2, 1). -/
def calculate_base_quality_score (df : DataFrame) : ℚ :=
  if df.isEmptyDF then 0
  else round1 ((completenessRaw df + calculate_consistency_score df) / 2)

/-- Views.py get_score_grade. -/
def get_score_grade (score : ℚ) : String :=
  if 90 ≤ score then "A"
  else if 80 ≤ score then "B"
  else if 70 ≤ score then "C"
  else if 60 ≤ score then "D"
  else "F"

/-- The quality_score block assembled by views.py analyze_dataset_smart. -/
structure QualityScore where
  total_score : ℚ
  base_score : ℚ
  issue_penalty : ℚ
  grade : String
  completeness : ℚ
  consistency : ℚ
  format_compliance : ℚ
deriving DecidableEq, Repr

/-- Views.py analyze_dataset_smart, quality_score portion: the claims under
verification only concern this block (the rest of the result bundle is
display metadata and insights). -/
def analyze_dataset_smart (df : DataFrame) (file_issues : List Issue) : QualityScore :=
  let base_score := calculate_base_quality_score df
  let pen : ℚ := (issue_penalty file_issues : ℚ)
  let final_score := max (base_score - pen) 0
  { total_score := final_score
    base_score := base_score
    issue_penalty := pen
    grade := get_score_grade final_score
    completeness := calculate_completeness_score df
    consistency := calculate_consistency_score df
    format_compliance := max (100 - pen) 0 }

/-! ## JSON values and a strict parser (models Python json.loads) -/

/-- A decoded JSON value. -/
inductive JVal where
  | jnull
  | jbool (b : Bool)
  | jnum (q : ℚ)
  | jstr (s : String)
  | jarr (xs : List JVal)
  | jobj (kvs : List (String × JVal))

/-- Skip JSON whitespace. -/
def skipWsL : List Char → List Char
  | [] => []
  | c :: cs => if c.isWhitespace then skipWsL cs else c :: cs

/-- Is the char an ASCII digit? -/
def isDigitCh (c : Char) : Bool := 48 ≤ c.toNat && c.toNat ≤ 57

/-- Digit value of an ASCII digit. -/
def digitVal (c : Char) : ℕ := c.toNat - 48

/-- Leading digits of a char list. -/
def spanDigits (l : List Char) : List Char × List Char := l.span isDigitCh

/-- Natural number denoted by a digit list. -/
def natOfDigits (l : List Char) : ℕ := l.foldl (fun acc c => 10 * acc + digitVal c) 0

/-- Hexadecimal digit value. -/
def hexVal (c : Char) : Option ℕ :=
  if 48 ≤ c.toNat && c.toNat ≤ 57 then some (c.toNat - 48)
  else if 97 ≤ c.toNat && c.toNat ≤ 102 then some (c.toNat - 87)
  else if 65 ≤ c.toNat && c.toNat ≤ 70 then some (c.toNat - 55)
  else none

/-- Parse a JSON number (sign, integer part without leading zeros, optional
fraction, optional exponent) into an exact rational. -/
def parseJNum (l : List Char) : Option (ℚ × List Char) :=
  let signSplit : Bool × List Char :=
    match l with
    | c :: r => if c = '-' then (true, r) else (false, l)
    | [] => (false, l)
  match spanDigits signSplit.2 with
  | ([], _) => none
  | (d :: ds, rest) =>
    if d = '0' && !ds.isEmpty then none
    else
      let ip : ℚ := (natOfDigits (d :: ds) : ℚ)
      let fracStep : Option (ℚ × List Char) :=
        match rest with
        | c :: r =>
          if c = '.' then
            match spanDigits r with
            | ([], _) => none
            | (f :: fs, r2) =>
              some (ip + (natOfDigits (f :: fs) : ℚ) / ((10 : ℚ) ^ (f :: fs).length), r2)
          else some (ip, rest)
        | [] => some (ip, rest)
      match fracStep with
      | none => none
      | some (v1, r1) =>
        let expStep : Option (ℚ × List Char) :=
          match r1 with
          | c :: r =>
            if c = 'e' || c = 'E' then
              let esignSplit : Bool × List Char :=
                match r with
                | c2 :: r3 => if c2 = '+' then (false, r3) else if c2 = '-' then (true, r3) else (false, r)
                | [] => (false, r)
              match spanDigits esignSplit.2 with
              | ([], _) => none
              | (e :: es, r4) =>
                let ex := natOfDigits (e :: es)
                some (if esignSplit.1 then v1 / ((10 : ℚ) ^ ex) else v1 * ((10 : ℚ) ^ ex), r4)
            else some (v1, r1)
          | [] => some (v1, r1)
        match expStep with
        | none => none
        | some (v2, r2) => some ((if signSplit.1 then -v2 else v2), r2)

/-- Parse the body of a JSON string after the opening quote, handling the
standard escapes. -/
def parseStrBody : ℕ → List Char → List Char → Option (String × List Char)
  | 0, _, _ => none
  | fuel+1, cs, acc =>
    match cs with
    | [] => none
    | c :: rest =>
      if c = qChar then some (strOf acc.reverse, rest)
      else if c = bsChar then
        match rest with
        | [] => none
        | e :: r2 =>
          if e = qChar then parseStrBody fuel r2 (qChar :: acc)
          else if e = bsChar then parseStrBody fuel r2 (bsChar :: acc)
          else if e = '/' then parseStrBody fuel r2 ('/' :: acc)
          else if e = 'n' then parseStrBody fuel r2 (nlChar :: acc)
          else if e = 't' then parseStrBody fuel r2 (Char.ofNat 9 :: acc)
          else if e = 'r' then parseStrBody fuel r2 (Char.ofNat 13 :: acc)
          else if e = 'b' then parseStrBody fuel r2 (Char.ofNat 8 :: acc)
          else if e = 'f' then parseStrBody fuel r2 (Char.ofNat 12 :: acc)
          else if e = 'u' then
            match r2 with
            | h1 :: h2 :: h3 :: h4 :: r3 =>
              match hexVal h1, hexVal h2, hexVal h3, hexVal h4 with
              | some a, some b, some c2, some d2 =>
                parseStrBody fuel r3 (Char.ofNat (((a * 16 + b) * 16 + c2) * 16 + d2) :: acc)
              | _, _, _, _ => none
            | _ => none
          else none
      else parseStrBody fuel rest (c :: acc)

/-- Python dict construction order: first insertion wins the position, the
last value wins (duplicate JSON keys overwrite). -/
def dedupPairs (l : List (String × JVal)) : List (String × JVal) :=
  l.foldl (fun acc kv =>
    if acc.any (fun p => p.1 == kv.1) then
      acc.map (fun p => if p.1 == kv.1 then kv else p)
    else acc ++ [kv]) []

mutual

/-- Parse one JSON value (fuel-based recursion; the fuel is an upper bound
on nesting and never binds on the concrete inputs used below). -/
def parseVal : ℕ → List Char → Option (JVal × List Char)
  | 0, _ => none
  | fuel+1, cs =>
    match skipWsL cs with
    | [] => none
    | c :: rest =>
      if c = Char.ofNat 123 then parseObjItems fuel rest []
      else if c = Char.ofNat 91 then parseArrItems fuel rest []
      else if c = qChar then
        (parseStrBody (rest.length + 1) rest []).map (fun p => (JVal.jstr p.1, p.2))
      else if ['t', 'r', 'u', 'e'].isPrefixOf (c :: rest) then
        some (JVal.jbool true, rest.drop 3)
      else if ['f', 'a', 'l', 's', 'e'].isPrefixOf (c :: rest) then
        some (JVal.jbool false, rest.drop 4)
      else if ['n', 'u', 'l', 'l'].isPrefixOf (c :: rest) then
        some (JVal.jnull, rest.drop 3)
      else
        (parseJNum (c :: rest)).map (fun p => (JVal.jnum p.1, p.2))

/-- Parse the members of a JSON object after the opening brace. -/
def parseObjItems : ℕ → List Char → List (String × JVal) → Option (JVal × List Char)
  | 0, _, _ => none
  | fuel+1, cs, acc =>
    match skipWsL cs with
    | [] => none
    | c :: r =>
      if c = Char.ofNat 125 && acc.isEmpty then some (JVal.jobj [], r)
      else if c = qChar then
        match parseStrBody (r.length + 1) r [] with
        | none => none
        | some (key, r3) =>
          match skipWsL r3 with
          | [] => none
          | colon :: r4 =>
            if colon = Char.ofNat 58 then
              match parseVal fuel r4 with
              | none => none
              | some (v, r5) =>
                match skipWsL r5 with
                | [] => none
                | sep :: r6 =>
                  if sep = Char.ofNat 44 then parseObjItems fuel r6 (acc ++ [(key, v)])
                  else if sep = Char.ofNat 125 then
                    some (JVal.jobj (dedupPairs (acc ++ [(key, v)])), r6)
                  else none
            else none
      else none

/-- Parse the elements of a JSON array after the opening bracket. -/
def parseArrItems : ℕ → List Char → List JVal → Option (JVal × List Char)
  | 0, _, _ => none
  | fuel+1, cs, acc =>
    match skipWsL cs with
    | [] => none
    | c :: r =>
      if c = Char.ofNat 93 && acc.isEmpty then some (JVal.jarr [], r)
      else
        match parseVal fuel (c :: r) with
        | none => none
        | some (v, r2) =>
          match skipWsL r2 with
          | [] => none
          | sep :: r3 =>
            if sep = Char.ofNat 44 then parseArrItems fuel r3 (acc ++ [v])
            else if sep = Char.ofNat 93 then some (JVal.jarr (acc ++ [v]), r3)
            else none

end

/-- Python json.loads: parse one value with no trailing garbage. -/
def json_loads (l : List Char) : Option JVal :=
  match parseVal (2 * l.length + 2) l with
  | some (v, rest) => if (skipWsL rest).isEmpty then some v else none
  | none => none

/-! ## From JSON values to table rows (views.py JSON branch) -/

/-- Python str() of a decoded scalar JSON value; container renderings are
abbreviated (they appear only inside display joins, never in a claim). -/
def pyStrOfJVal : JVal → String
  | .jnull => "None"
  | .jbool b => if b then "True" else "False"
  | .jnum q => if q.den = 1 then toString q.num else toString q
  | .jstr s => s
  | .jarr _ => "[...]"
  | .jobj _ => "\x7b...\x7d"

/-- A decoded JSON value as a pandas cell: scalars become typed cells,
nested containers are opaque objects (rendered as text; object dtype
either way). -/
def jsonToCell : JVal → Cell
  | .jnull => Cell.null
  | .jbool b => Cell.boolC b
  | .jnum q => Cell.num q
  | .jstr s => Cell.str s
  | .jarr xs => Cell.str (pyStrOfJVal (JVal.jarr xs))
  | .jobj kvs => Cell.str (pyStrOfJVal (JVal.jobj kvs))

/-- Insert or overwrite a key in a record (Python dict assignment). -/
def upsertCell (l : List (String × Cell)) (k : String) (v : Cell) : List (String × Cell) :=
  if l.any (fun p => p.1 == k) then
    l.map (fun p => if p.1 == k then (k, v) else p)
  else l ++ [(k, v)]

/-- Python str.join with the separator of the source (comma-space). -/
def joinCommaSp (l : List String) : String := String.intercalate ", " l

/-- Views.py flatten_json_object: flatten a JSON object one level, counting
nested containers, inlining small nested dicts, sampling small lists, and
storing scalars as (truncated) text.  The fuel bounds the recursion depth
exactly as the Python recursion limit does. -/
def flatten_json_object : ℕ → List (String × JVal) → String → List (String × Cell)
  | 0, _, _ => []
  | fuel+1, kvs, pre =>
    kvs.foldl (fun acc kv =>
      let full_key := if pre = "" then kv.1 else pre ++ kv.1
      match kv.2 with
      | JVal.jobj sub =>
        let acc1 := upsertCell acc (full_key ++ "_count") (Cell.num (sub.length : ℚ))
        if sub.length ≤ 10 then
          (flatten_json_object fuel sub (full_key ++ "_")).foldl
            (fun a p => upsertCell a p.1 p.2) acc1
        else
          upsertCell acc1 (full_key ++ "_keys")
            (Cell.str (joinCommaSp ((sub.map Prod.fst).take 5)))
      | JVal.jarr xs =>
        let acc1 := upsertCell acc (full_key ++ "_count") (Cell.num (xs.length : ℚ))
        if !xs.isEmpty && xs.length ≤ 5 then
          upsertCell acc1 (full_key ++ "_items")
            (Cell.str (joinCommaSp ((xs.take 3).map pyStrOfJVal)))
        else acc1
      | v =>
        let sv := pyStrOfJVal v
        upsertCell acc full_key (Cell.str (strOf (sv.toList.take 200)))) []

/-- Column names appearing across a list of records, in first-appearance
order (pandas DataFrame over a list of dicts). -/
def rowKeys (rows : List (List (String × Cell))) : List String :=
  rows.foldl (fun acc r =>
    r.foldl (fun acc2 kv => if kv.1 ∈ acc2 then acc2 else acc2 ++ [kv.1]) acc) []

/-- Value of a key in a record, null when absent. -/
def lookupCell (r : List (String × Cell)) (k : String) : Cell :=
  match r.find? (fun p => p.1 == k) with
  | some p => p.2
  | none => Cell.null

/-- Pandas DataFrame from a list of records: one row per record, columns in
first-appearance order, missing keys null. -/
def dfOfRecords (rows : List (List (String × Cell))) : DataFrame :=
  ⟨(rowKeys rows).map (fun k => mkCol k (rows.map (fun r => lookupCell r k))), rows.length⟩

/-- Record of a JSON object element (used for lists of objects); a
non-object element contributes an empty record. -/
def recordOfJVal : JVal → List (String × Cell)
  | .jobj kvs => kvs.foldl (fun acc kv => upsertCell acc kv.1 (jsonToCell kv.2)) []
  | _ => []

/-! ## CSV model and the report-structure parser (views.py) -/

/-- Python str() of a cell (pandas renders NaN as nan). -/
def pyStrOfCell : Cell → String
  | .num q => if q.den = 1 then toString q.num else toString q
  | .str s => s
  | .boolC b => if b then "True" else "False"
  | .null => "nan"

/-- One CSV field as a typed cell: empty is NaN, numeric text is a number,
True and False are booleans, anything else text (pandas type inference;
exotic numeric spellings that only pandas accepts are not modelled, no
claim depends on them). -/
def csvCell (f : List Char) : Cell :=
  if f.isEmpty then Cell.null
  else
    match parseJNum f with
    | some (q, []) => Cell.num q
    | _ =>
      if strOf f = "True" then Cell.boolC true
      else if strOf f = "False" then Cell.boolC false
      else Cell.str (strOf f)

/-- Models pandas.read_csv (C engine) on simple unquoted text: blank lines
skipped, first remaining line is the header, rows split on commas, a row
with more fields than the header raises ParserError (none here), shorter
rows padded with nulls, no non-blank line at all raises EmptyDataError
(none).  Quoting is not modelled; no claim depends on a quoted parse. -/
def read_csv (l : List Char) : Option DataFrame :=
  let lines := (splitOnNl l).filter (fun x => !(trimL x).isEmpty)
  match lines with
  | [] => none
  | hdr :: rest =>
    let names := splitOnChar ',' hdr
    let rows := rest.map (splitOnChar ',')
    if rows.any (fun r => names.length < r.length) then none
    else
      some ⟨(List.range names.length).map (fun i =>
        mkCol (strOf (names.getD i []))
          (rows.map (fun r =>
            match r.get? i with
            | some f => csvCell f
            | none => Cell.null))), rest.length⟩

/-- The report-format sentinel check of the CSV branch: some cell of the
first three rows renders to text containing the phrase Analysis Report. -/
def reportSentinel (df : DataFrame) : Bool :=
  df.cols.any (fun c => (c.cells.take 3).any (fun cell =>
    containsSeq ("Analysis Report".toList) (pyStrOfCell cell).toList))

/-- The fixed section-header labels of parse_analysis_report. -/
def reportHeaders : List String :=
  ["Dataset Information", "Quality Metrics", "Anomalies", "Detailed Anomalies",
   "Bias Metrics", "AI Insights"]

/-- Views.py parse_analysis_report (lines 965-1006): walk the lines,
switch the current section on exact header labels, split other lines on
the first comma into (metric, value) rows, keep comma-free lines as
metric content, and fall back to a one-column frame when nothing parsed. -/
def parse_analysis_report (l : List Char) : DataFrame :=
  let lines := splitOnNl (trimL l)
  let step := fun (st : String × List (String × String × String × ℕ)) (p : ℕ × List Char) =>
    let ln := stripQuotes (trimL p.2)
    if ln.isEmpty then st
    else
      let s := strOf ln
      if s ∈ reportHeaders then (lowerUnderscore s, st.2)
      else if 0 < countChar ln ',' then
        match splitFirst ',' ln with
        | some (a, b) =>
          let p0 := strOf (stripQuotes (trimL a))
          let p1 := strOf (stripQuotes (trimL b))
          if p0 ≠ "" ∧ p1 ≠ "" then (st.1, st.2 ++ [(st.1, p0, p1, p.1 + 1)])
          else st
        | none => st
      else (st.1, st.2 ++ [(st.1, "content", s, p.1 + 1)])
  let res := lines.enum.foldl step ("header", [])
  if !res.2.isEmpty then
    ⟨[mkCol "section" (res.2.map (fun r => Cell.str r.1)),
      mkCol "metric" (res.2.map (fun r => Cell.str r.2.1)),
      mkCol "value" (res.2.map (fun r => Cell.str r.2.2.1)),
      mkCol "line_number" (res.2.map (fun r => Cell.num (r.2.2.2 : ℚ)))], res.2.length⟩
  else
    ⟨[mkCol "content" (lines.map (fun x => Cell.str (strOf x)))], lines.length⟩

/-! ## The probe chain of smart_file_parser (views.py lines 768-932) -/

/-- Extension-mismatch issue of the JSON probe. -/
def jsonMismatchIssue (ext : String) : Issue :=
  ⟨"extension_mismatch", Severity.medium,
   "File contains JSON but has " ++ ext ++ " extension",
   "Consider renaming to .json"⟩

/-- Config-file issue of the JSON probe. -/
def configIssue : Issue :=
  ⟨"config_file_detected", Severity.info,
   "Configuration file (package.json style) detected",
   "Data will be flattened for analysis"⟩

/-- Extension-mismatch issue of the CSV probe. -/
def csvMismatchIssue (ext : String) : Issue :=
  ⟨"extension_mismatch", Severity.medium,
   "File contains CSV data but has " ++ ext ++ " extension",
   "Consider renaming to .csv"⟩

/-- Report-format issue of the CSV probe. -/
def reportFormatIssue : Issue :=
  ⟨"report_format", Severity.info,
   "Analysis report format detected",
   "Will extract structured data from report"⟩

/-- Document-conversion issue of the document probe. -/
def documentParsedIssue : Issue :=
  ⟨"document_parsed", Severity.info,
   "Document converted to line-by-line analysis format",
   "Text content extracted for analysis"⟩

/-- Fallback issue of the line-fallback branch. -/
def fallbackParsingIssue : Issue :=
  ⟨"fallback_parsing", Severity.medium,
   "Could not detect specific format, parsed as text",
   "Verify file format and content"⟩

/-- Key membership in a decoded JSON object. -/
def jsonKeyMem (kvs : List (String × JVal)) (k : String) : Bool :=
  kvs.any (fun p => p.1 == k)

/-- Probe 1 (views.py lines 789-826): JSON.  A parse failure contributes
nothing (the except catches only JSONDecodeError); on success every shape
of value yields a frame. -/
def jsonProbe (content preview : List Char) (ext : String) : Option (DataFrame × List Issue) :=
  match preview with
  | [] => none
  | c :: _ =>
    if c = Char.ofNat 123 ∨ c = Char.ofNat 91 then
      match json_loads content with
      | none => none
      | some data =>
        let iss0 := if ext ≠ ".json" then [jsonMismatchIssue ext] else []
        match data with
        | JVal.jobj kvs =>
          if jsonKeyMem kvs "name" && jsonKeyMem kvs "version" then
            some (dfOfRecords [flatten_json_object 1000 kvs ""], iss0 ++ [configIssue])
          else
            some (dfOfRecords [recordOfJVal (JVal.jobj kvs)], iss0)
        | JVal.jarr (x :: xs) =>
          match x with
          | JVal.jobj _ => some (dfOfRecords ((x :: xs).map recordOfJVal), iss0)
          | _ => some (⟨[mkCol "items" ((x :: xs).map jsonToCell)], xs.length + 1⟩, iss0)
        | _ => some (⟨[mkCol "value" [jsonToCell data]], 1⟩, iss0)
    else none

/-- The comma-detection gate of the CSV probe: a comma in some of the
first ten non-blank preview lines. -/
def csvGate (preview : List Char) : Bool :=
  let commaCounts := (((splitOnNl preview).take 10).filter
    (fun ln => !(trimL ln).isEmpty)).map (fun ln => countChar ln ',')
  !commaCounts.isEmpty && decide (1 ≤ commaCounts.foldl max 0)

/-- Probe 2 (views.py lines 828-858): delimited text.  The except branch
of the source swallows any mid-parse failure with only a debug log and
records no issue, so a failed parse yields none and contributes nothing. -/
def csvProbe (content preview : List Char) (ext : String) : Option (DataFrame × List Issue) :=
  if csvGate preview then
    match read_csv content with
    | none => none
    | some df =>
      let iss0 := if ext ≠ ".csv" then [csvMismatchIssue ext] else []
      if 0 < df.nrows ∧ reportSentinel df then
        some (parse_analysis_report content, iss0 ++ [reportFormatIssue])
      else some (df, iss0)
  else none

/-- Pandas read_excel on decoded text: a real spreadsheet payload is a
binary zip container, never valid decoded text, so within this text-level
embedding the spreadsheet reader always raises (none). -/
def read_excel (_content : List Char) : Option DataFrame := none

/-- Mammoth raw-text extraction from docx, same text-level modelling as
read_excel (docx is a binary zip container). -/
def mammothRawText (_content : List Char) : Option (List Char) := none

/-- Probe 4 (views.py lines 869-894): word-processing documents.  For docx
the binary extractor raises and the except leaves the frame unset; for doc
the decoded text itself is split into lines and tabulated. -/
def docProbe (content : List Char) (ext : String) : Option (DataFrame × List Issue) :=
  let textLines? : Option (List (List Char)) :=
    if ext = ".docx" then (mammothRawText content).map splitOnNl
    else some (splitOnNl content)
  match textLines? with
  | none => none
  | some ls =>
    some (⟨[mkCol "line_number" ((List.range ls.length).map (fun i => Cell.num ((i + 1 : ℕ) : ℚ))),
            mkCol "content" (ls.map (fun x => Cell.str (strOf x))),
            mkCol "char_count" (ls.map (fun x => Cell.num ((x.length : ℕ) : ℚ)))], ls.length⟩,
          [documentParsedIssue])

/-- Probe 5 (views.py lines 896-912): line fallback over the first 1000
lines. -/
def fallbackTable (content : List Char) : DataFrame :=
  let lines := (splitOnNl content).take 1000
  ⟨[mkCol "line_number" ((List.range lines.length).map (fun i => Cell.num ((i + 1 : ℕ) : ℚ))),
    mkCol "content" (lines.map (fun x => Cell.str (strOf x))),
    mkCol "char_count" (lines.map (fun x => Cell.num ((x.length : ℕ) : ℚ))),
    mkCol "is_empty" (lines.map (fun x => Cell.boolC (trimL x).isEmpty))], lines.length⟩

/-- The dataset_info snapshot of smart_file_parser (size_bytes and the
memory estimate are I/O metadata outside this text-level embedding). -/
structure DatasetInfo where
  rows : ℕ
  columns : ℕ
  file_type : String
  actual_content_type : String
  extension_mismatch : Bool
  missing_percentage : ℚ
deriving DecidableEq, Repr

/-- The triple returned by smart_file_parser. -/
structure ParseOutput where
  df : DataFrame
  info : DatasetInfo
  issues : List Issue
deriving DecidableEq, Repr

/-- Build the dataset_info snapshot (views.py lines 917-930). -/
def mkDatasetInfo (df : DataFrame) (ext actual : String) : DatasetInfo :=
  let ft := strOf (ext.toList.dropWhile (fun c => c = '.'))
  { rows := df.nrows
    columns := df.cols.length
    file_type := ft
    actual_content_type := actual
    extension_mismatch := actual != ft
    missing_percentage :=
      if 0 < df.nrows ∧ 0 < df.cols.length then
        round2 ((missingCells df : ℚ) / ((df.nrows : ℚ) * (df.cols.length : ℚ)) * 100)
      else 0 }

/-- Views.py smart_file_parser (lines 768-932; Lean spelling of the source
name smart_file_parser).  Probes run in priority order, the first success
wins, and the final guard raises ValueError exactly when the resulting
frame is empty. -/
def smartFileParser (contentS : String) (ext : String) : Except String ParseOutput :=
  let content := contentS.toList
  let preview := trimL (content.take 2000)
  let stage1 : Option (DataFrame × String × List Issue) :=
    (jsonProbe content preview ext).map (fun p => (p.1, "json", p.2))
  let stage2 :=
    match stage1 with
    | some r => some r
    | none => (csvProbe content preview ext).map (fun p => (p.1, "csv", p.2))
  let stage3 :=
    match stage2 with
    | some r => some r
    | none =>
      if ext = ".xlsx" ∨ ext = ".xls" then
        (read_excel content).map (fun d => (d, "excel", ([] : List Issue)))
      else none
  let stage4 :=
    match stage3 with
    | some r => some r
    | none =>
      if ext = ".doc" ∨ ext = ".docx" then
        (docProbe content ext).map (fun p => (p.1, "document", p.2))
      else none
  let final :=
    match stage4 with
    | some r => r
    | none => (fallbackTable content, "text", [fallbackParsingIssue])
  if final.1.nrows == 0 || final.1.cols.isEmpty then
    Except.error "Unable to extract any data from the file"
  else
    Except.ok ⟨final.1, mkDatasetInfo final.1 ext final.2.1, final.2.2⟩

/-! ## The anomaly detector and bias analyzer (tasks.py) -/

/-- The anomaly report of tasks.py detect_anomalies. -/
structure AnomalyReport where
  total_anomalies : ℕ
  critical : ℕ
  moderate : ℕ
  examples : List (List Cell)
deriving DecidableEq, Repr

/-- The zero-anomaly report returned on insufficient data and on any
caught exception. -/
def anomalyZeroReport : AnomalyReport := ⟨0, 0, 0, []⟩

/-- Numeric sub-frame with zeros imputed for missing values
(df.select_dtypes(include=[np.number]).fillna(0); bool columns are not
np.number). -/
def selectNumericFilled (df : DataFrame) : DataFrame :=
  ⟨(df.cols.filter (fun c => c.dtype == Dtype.numeric)).map
     (fun c => ⟨c.name, c.dtype, c.cells.map (fun x => if x.isNull then Cell.num 0 else x)⟩),
   df.nrows⟩

/-- Row i of a frame as a cell list (pandas record order). -/
def dfRow (df : DataFrame) (i : ℕ) : List Cell :=
  df.cols.map (fun c => c.cells.getD i Cell.null)

/-- Tasks.py detect_anomalies (lines 215-241).  The seeded sklearn
IsolationForest fit_predict call is an external library computation,
modelled by the isoPredict parameter (isoPredict i = true models
prediction -1 in row i); everything downstream of the predictions is
translated from the source.  int(total * 0.4) on a nonnegative value is
floor, i.e. total * 2 / 5 in ℕ. -/
def detect_anomalies (isoPredict : ℕ → Bool) (df : DataFrame) : AnomalyReport :=
  let numeric := selectNumericFilled df
  if numeric.cols.isEmpty ∨ numeric.nrows < 10 then anomalyZeroReport
  else
    let anomIdx := (List.range numeric.nrows).filter isoPredict
    let total := anomIdx.length
    let critical := total * 2 / 5
    ⟨total, critical, total - critical, (anomIdx.take 3).map (dfRow numeric)⟩

/-- A flagged-column record of tasks.py analyze_bias. -/
structure BiasFlag where
  field : String
  dominant_value : String
  pct : ℚ
deriving DecidableEq, Repr

/-- The bias report of tasks.py analyze_bias. -/
structure BiasReport where
  overall_bias_score : ℚ
  bias_issues : List String
  imbalanced_fields : List BiasFlag
deriving DecidableEq, Repr

/-- The top entry of pandas value_counts over a column: the most frequent
non-null value with its count (first occurrence wins ties). -/
def vcTop (cells : List Cell) : Option (Cell × ℕ) :=
  let nn := cells.filter (fun x => !x.isNull)
  (distinctsInOrder nn).foldl (fun best c =>
    match best with
    | none => some (c, (nn.filter (fun x => decide (x = c))).length)
    | some (b, n) =>
      let m := (nn.filter (fun x => decide (x = c))).length
      if n < m then some (c, m) else some (b, n)) none

/-- Count of non-null cells of a column. -/
def nonNullCount (c : Column) : ℕ := (c.cells.filter (fun x => !x.isNull)).length

/-- Tasks.py analyze_bias (lines 244-262): flag every column whose
dominant normalized share exceeds 0.8, record its rendered dominant value
and round(share*100, 1), and score max(100 - 10*flagged, 0).  The
per-column try/except continue is unreachable here: value_counts does not
raise on any modelled column. -/
def analyze_bias (df : DataFrame) : BiasReport :=
  let flags := df.cols.filterMap (fun c =>
    match vcTop c.cells with
    | none => none
    | some (v, n) =>
      if ((n : ℚ) / (nonNullCount c : ℚ)) > 8/10 then
        some ⟨c.name, pyStrOfCell v, round1 ((n : ℚ) / (nonNullCount c : ℚ) * 100)⟩
      else none)
  ⟨max (100 - 10 * (flags.length : ℚ)) 0, flags.map (fun f => f.field), flags⟩

/-- Numeric value of a filled cell. -/
def cellQ : Cell → ℚ
  | Cell.num q => q
  | _ => 0

/-- Column mean over the filled numeric cells (pandas mean). -/
def colMeanQ (cells : List Cell) : ℚ := (cells.map cellQ).sum / (cells.length : ℚ)

/-- Sample variance of a column (pandas std squared, ddof = 1). -/
def colVarQ (cells : List Cell) : ℚ :=
  ((cells.map cellQ).map (fun q => (q - colMeanQ cells) ^ 2)).sum / ((cells.length : ℚ) - 1)

/-- Modelled from the spec: the per-row severity rule of spec section 4.4
(critical when the row's maximum per-column absolute deviation from the
column mean exceeds 3 times the maximum standard deviation across the
numeric columns).  The live detect_anomalies performs no such per-row
classification — the rule survives only in commented-out code — so this
definition follows the spec words, stated on squares to remain in ℚ
(dev > 3·sigma iff dev² > 9·sigma² for nonnegative operands). -/
def specCriticalCount (isoPredict : ℕ → Bool) (df : DataFrame) : ℕ :=
  let numeric := selectNumericFilled df
  let maxVar := (numeric.cols.map (fun c => colVarQ c.cells)).foldl max 0
  ((List.range numeric.nrows).filter (fun i =>
    isoPredict i &&
    decide (((numeric.cols.map
      (fun c => (cellQ (c.cells.getD i Cell.null) - colMeanQ c.cells) ^ 2)).foldl max 0)
        > 9 * maxVar))).length

/-! ## Result projections and concrete claim inputs -/

/-- The successful result of the parser, none on ParseError. -/
def exceptToOption : Except String ParseOutput → Option ParseOutput
  | .ok o => some o
  | .error _ => none

/-- The package-json style test input of views.py test_package_json_as_csv,
declared with the delimited-text extension. -/
def c1content : String := "\x7b\"name\":\"test\",\"version\":\"1.0.0\"\x7d"

/-- The output smart_file_parser produces for c1content declared as csv. -/
def c1expected : ParseOutput :=
  ⟨⟨[⟨"name", Dtype.object, [Cell.str "test"]⟩,
     ⟨"version", Dtype.object, [Cell.str "1.0.0"]⟩], 1⟩,
   ⟨1, 2, "csv", "json", true, 0⟩,
   [jsonMismatchIssue ".csv", configIssue]⟩

/-- A 20-row single-numeric-column frame: nineteen zeros and one extreme
outlier. -/
def c4df : DataFrame :=
  ⟨[mkCol "x" ((List.replicate 19 (Cell.num 0)) ++ [Cell.num 1000])], 20⟩

/-- Anomaly flags marking exactly the outlier row of c4df. -/
def c4pred : ℕ → Bool := fun i => i == 19

/-- A 3-row frame with one numeric column (below the 10-row threshold). -/
def c5df : DataFrame :=
  ⟨[mkCol "n" [Cell.num 1, Cell.num 2, Cell.num 3]], 3⟩

/-- A 20-row single-column frame whose dominant value occupies 85 percent
of the rows. -/
def c6df : DataFrame :=
  ⟨[mkCol "label" ((List.replicate 17 (Cell.str "x")) ++ (List.replicate 3 (Cell.str "y")))], 20⟩

/-- A two-line delimited-looking input whose second line has more fields
than the header: pandas raises ParserError on it. -/
def c8content : String := "a,b\n1,2,3"

/-- A 12-row numeric frame for exercising the non-degenerate anomaly
branch. -/
def c10df : DataFrame :=
  ⟨[mkCol "v" ((List.range 12).map (fun i => Cell.num ((i : ℕ) : ℚ)))], 12⟩

/-- Anomaly flags marking the first four rows of c10df. -/
def c10pred : ℕ → Bool := fun i => i < 4

/-! ## Helper lemmas -/

set_option maxRecDepth 10000

theorem pyRoundInt_le (x : ℚ) : (pyRoundInt x : ℚ) ≤ x + 1/2 := by
  unfold pyRoundInt
  have hf : (⌊x⌋ : ℚ) ≤ x := Int.floor_le x
  have hc : x < ⌊x⌋ + 1 := Int.lt_floor_add_one x
  split_ifs with h1 h2 h3 <;> push_cast <;> linarith

theorem le_pyRoundInt (x : ℚ) : x - 1/2 ≤ (pyRoundInt x : ℚ) := by
  unfold pyRoundInt
  have hf : (⌊x⌋ : ℚ) ≤ x := Int.floor_le x
  have hc : x < ⌊x⌋ + 1 := Int.lt_floor_add_one x
  split_ifs with h1 h2 h3 <;> push_cast <;> linarith

theorem round1_nonneg (x : ℚ) (hx : 0 ≤ x) : 0 ≤ round1 x := by
  unfold round1
  have h := le_pyRoundInt (10 * x)
  have h2 : (0 : ℚ) ≤ (pyRoundInt (10 * x) : ℚ) := by
    have hr : (-1 : ℚ) < (pyRoundInt (10 * x) : ℚ) := by linarith
    have hz : (-1 : ℤ) < pyRoundInt (10 * x) := by exact_mod_cast hr
    have hz2 : (0 : ℤ) ≤ pyRoundInt (10 * x) := by omega
    exact_mod_cast hz2
  exact div_nonneg h2 (by norm_num)

theorem round1_le_100 (x : ℚ) (hx : x ≤ 100) : round1 x ≤ 100 := by
  unfold round1
  have h := pyRoundInt_le (10 * x)
  have h2 : (pyRoundInt (10 * x) : ℚ) ≤ 1000 := by
    have hr : (pyRoundInt (10 * x) : ℚ) < 1001 := by linarith
    have hz : pyRoundInt (10 * x) < (1001 : ℤ) := by exact_mod_cast hr
    have hz2 : pyRoundInt (10 * x) ≤ (1000 : ℤ) := by omega
    exact_mod_cast hz2
  rw [div_le_iff₀ (by norm_num : (0:ℚ) < 10)]
  linarith

theorem foldl_distinct_length_le (l : List Cell) (acc : List Cell) :
    (l.foldl (fun a c => if c ∈ a then a else a ++ [c]) acc).length ≤ acc.length + l.length := by
  induction l generalizing acc with
  | nil => simp
  | cons x xs ih =>
    simp only [List.foldl_cons]
    have h := ih (if x ∈ acc then acc else acc ++ [x])
    have h2 : (if x ∈ acc then acc else acc ++ [x]).length ≤ acc.length + 1 := by
      split_ifs <;> simp
    simp only [List.length_cons]
    omega

theorem distinctsInOrder_length_le (l : List Cell) :
    (distinctsInOrder l).length ≤ l.length := by
  have h := foldl_distinct_length_le l []
  simpa [distinctsInOrder] using h

theorem colConsistency_bounds (c : Column) (s : ℚ) (h : colConsistency c = some s) :
    0 ≤ s ∧ s ≤ 100 := by
  simp only [colConsistency] at h
  split_ifs at h with hobj hnn hgt
  · have hle := distinctsInOrder_length_le (nonNullCells c)
    have hpos : (0 : ℚ) < ((nonNullCells c).length : ℚ) := by exact_mod_cast hnn
    have hratio0 : (0:ℚ) ≤ ((distinctsInOrder (nonNullCells c)).length : ℚ) /
        ((nonNullCells c).length : ℚ) := by
      apply div_nonneg _ (le_of_lt hpos)
      positivity
    have hratio1 : ((distinctsInOrder (nonNullCells c)).length : ℚ) /
        ((nonNullCells c).length : ℚ) ≤ 1 := by
      rw [div_le_one hpos]
      exact_mod_cast hle
    have hs := Option.some.inj h
    rw [← hs]
    constructor <;> nlinarith
  · have hs := Option.some.inj h
    rw [← hs]
    norm_num
  · have hs := Option.some.inj h
    rw [← hs]
    norm_num

theorem consistency_score_bounds (df : DataFrame) :
    0 ≤ calculate_consistency_score df ∧ calculate_consistency_score df ≤ 100 := by
  unfold calculate_consistency_score
  by_cases h1 : df.isEmptyDF = true
  · rw [if_pos h1]
    norm_num
  rw [if_neg h1]
  by_cases h2 : (df.cols.filterMap colConsistency).isEmpty = true
  · rw [if_pos h2]
    norm_num
  rw [if_neg h2]
  · have hbounds : ∀ s ∈ df.cols.filterMap colConsistency, 0 ≤ s ∧ s ≤ 100 := by
      intro s hs
      obtain ⟨c, _, hcs⟩ := List.mem_filterMap.mp hs
      exact colConsistency_bounds c s hcs
    have hne : df.cols.filterMap colConsistency ≠ [] := by
      intro hnil
      exact h2 (by rw [hnil]; rfl)
    have hlen : (0:ℚ) < ((df.cols.filterMap colConsistency).length : ℚ) := by
      have hp : 0 < (df.cols.filterMap colConsistency).length := List.length_pos.mpr hne
      exact_mod_cast hp
    have hsum0 : 0 ≤ (df.cols.filterMap colConsistency).sum :=
      List.sum_nonneg (fun s hs => (hbounds s hs).1)
    have hsum1 : (df.cols.filterMap colConsistency).sum ≤
        100 * ((df.cols.filterMap colConsistency).length : ℚ) := by
      have h := List.sum_le_card_nsmul (df.cols.filterMap colConsistency) 100
        (fun s hs => (hbounds s hs).2)
      simpa [nsmul_eq_mul, mul_comm] using h
    constructor
    · exact round1_nonneg _ (div_nonneg hsum0 (le_of_lt hlen))
    · refine round1_le_100 _ ?_
      rw [div_le_iff₀ hlen]
      linarith

theorem completenessRaw_le_100 (df : DataFrame) : completenessRaw df ≤ 100 := by
  unfold completenessRaw
  have h : (0:ℚ) ≤ (missingCells df : ℚ) / ((df.nrows : ℚ) * (df.cols.length : ℚ)) := by
    apply div_nonneg <;> positivity
  nlinarith

theorem base_score_le_100 (df : DataFrame) : calculate_base_quality_score df ≤ 100 := by
  unfold calculate_base_quality_score
  split_ifs
  · norm_num
  · apply round1_le_100
    have h1 := completenessRaw_le_100 df
    have h2 := (consistency_score_bounds df).2
    linarith

theorem grade_A_iff (s : ℚ) : get_score_grade s = "A" ↔ 90 ≤ s := by
  unfold get_score_grade
  split_ifs with h1 h2 h3 h4 <;> constructor <;> intro hx <;>
    first
    | rfl
    | linarith
    | exact absurd hx (by decide)

theorem grade_B_iff (s : ℚ) : get_score_grade s = "B" ↔ 80 ≤ s ∧ s < 90 := by
  unfold get_score_grade
  split_ifs with h1 h2 h3 h4 <;> constructor <;> intro hx <;>
    first
    | rfl
    | exact ⟨by linarith, by linarith⟩
    | exact absurd hx (by decide)
    | (rcases hx with ⟨hy, hz⟩; exact absurd rfl (by linarith))
    | (rcases hx with ⟨hy, hz⟩; exact absurd hy (by simp; linarith))
    | (rcases hx with ⟨hy, hz⟩; exfalso; linarith)

theorem grade_C_iff (s : ℚ) : get_score_grade s = "C" ↔ 70 ≤ s ∧ s < 80 := by
  unfold get_score_grade
  split_ifs with h1 h2 h3 h4 <;> constructor <;> intro hx <;>
    first
    | rfl
    | exact ⟨by linarith, by linarith⟩
    | exact absurd hx (by decide)
    | (rcases hx with ⟨hy, hz⟩; exfalso; linarith)

theorem grade_D_iff (s : ℚ) : get_score_grade s = "D" ↔ 60 ≤ s ∧ s < 70 := by
  unfold get_score_grade
  split_ifs with h1 h2 h3 h4 <;> constructor <;> intro hx <;>
    first
    | rfl
    | exact ⟨by linarith, by linarith⟩
    | exact absurd hx (by decide)
    | (rcases hx with ⟨hy, hz⟩; exfalso; linarith)

theorem grade_F_iff (s : ℚ) : get_score_grade s = "F" ↔ s < 60 := by
  unfold get_score_grade
  split_ifs with h1 h2 h3 h4 <;> constructor <;> intro hx <;>
    first
    | rfl
    | linarith
    | exact absurd hx (by decide)

theorem get_score_grade_bands (s : ℚ) :
    (get_score_grade s = "A" ↔ 90 ≤ s) ∧
    (get_score_grade s = "B" ↔ 80 ≤ s ∧ s < 90) ∧
    (get_score_grade s = "C" ↔ 70 ≤ s ∧ s < 80) ∧
    (get_score_grade s = "D" ↔ 60 ≤ s ∧ s < 70) ∧
    (get_score_grade s = "F" ↔ s < 60) :=
  ⟨grade_A_iff s, grade_B_iff s, grade_C_iff s, grade_D_iff s, grade_F_iff s⟩

theorem splitOnNl_ne_nil (l : List Char) : splitOnNl l ≠ [] := by
  induction l with
  | nil => simp [splitOnNl]
  | cons c cs ih =>
    unfold splitOnNl
    split_ifs
    · simp
    · cases h : splitOnNl cs <;> simp

theorem fallbackTable_nrows_pos (l : List Char) : 0 < (fallbackTable l).nrows := by
  unfold fallbackTable
  have h := splitOnNl_ne_nil l
  cases hs : splitOnNl l with
  | nil => exact absurd hs h
  | cons a rest => simp [hs]

theorem fallbackTable_nrows_le (l : List Char) : (fallbackTable l).nrows ≤ 1000 := by
  unfold fallbackTable
  exact List.length_take_le 1000 (splitOnNl l)

theorem smartFileParser_fallback (contentS : String) (ext : String)
    (hjson : jsonProbe contentS.toList (trimL (contentS.toList.take 2000)) ext = none)
    (hcsv : csvProbe contentS.toList (trimL (contentS.toList.take 2000)) ext = none)
    (hdoc : ext ≠ ".doc") :
    smartFileParser contentS ext =
      Except.ok ⟨fallbackTable contentS.toList,
                 mkDatasetInfo (fallbackTable contentS.toList) ext "text",
                 [fallbackParsingIssue]⟩ := by
  have hx : (if ext = ".xlsx" ∨ ext = ".xls" then
      (read_excel contentS.toList).map (fun d => (d, "excel", ([] : List Issue)))
      else none) = none := by
    split_ifs <;> simp [read_excel]
  have hd : (if ext = ".doc" ∨ ext = ".docx" then
      (docProbe contentS.toList ext).map (fun p => (p.1, "document", p.2))
      else none) = none := by
    by_cases hdx : ext = ".docx"
    · rw [if_pos (Or.inr hdx)]
      simp [docProbe, hdx, mammothRawText]
    · rw [if_neg]
      intro hor
      rcases hor with h1 | h2
      · exact hdoc h1
      · exact hdx h2
  have hpos := fallbackTable_nrows_pos contentS.toList
  have hne : ((fallbackTable contentS.toList).nrows == 0) = false := by
    simp only [beq_eq_false_iff_ne, ne_eq]
    omega
  have hcols : (fallbackTable contentS.toList).cols.isEmpty = false := by
    unfold fallbackTable
    rfl
  unfold smartFileParser
  simp only [hjson, hcsv, Option.map_none', hx, hd]
  simp only [hne, hcols]
  rfl

theorem detect_anomalies_zero_of_insufficient (isoPredict : ℕ → Bool) (df : DataFrame)
    (h : (selectNumericFilled df).cols = [] ∨ df.nrows < 10) :
    detect_anomalies isoPredict df = anomalyZeroReport := by
  unfold detect_anomalies
  rw [if_pos]
  rcases h with h1 | h2
  · left
    rw [h1]
    rfl
  · right
    exact h2

theorem detect_anomalies_def (isoPredict : ℕ → Bool) (df : DataFrame) :
    detect_anomalies isoPredict df =
      if (selectNumericFilled df).cols.isEmpty = true ∨ (selectNumericFilled df).nrows < 10
      then anomalyZeroReport
      else ⟨((List.range (selectNumericFilled df).nrows).filter isoPredict).length,
            ((List.range (selectNumericFilled df).nrows).filter isoPredict).length * 2 / 5,
            ((List.range (selectNumericFilled df).nrows).filter isoPredict).length -
              ((List.range (selectNumericFilled df).nrows).filter isoPredict).length * 2 / 5,
            (((List.range (selectNumericFilled df).nrows).filter isoPredict).take 3).map
              (dfRow (selectNumericFilled df))⟩ := rfl

/-- C2: for every coerced frame and every issue list, the quality score of
analyze_dataset_smart satisfies total_score = max(base_score −
issue_penalty, 0), hence 0 ≤ total_score ≤ 100, and the grade matches the
documented bands, inclusive at each lower edge. -/
theorem C2_quality_score_bounds_and_grade (df : DataFrame) (file_issues : List Issue) :
    (analyze_dataset_smart df file_issues).total_score =
      max ((analyze_dataset_smart df file_issues).base_score -
        (analyze_dataset_smart df file_issues).issue_penalty) 0 ∧
    0 ≤ (analyze_dataset_smart df file_issues).total_score ∧
    (analyze_dataset_smart df file_issues).total_score ≤ 100 ∧
    ((analyze_dataset_smart df file_issues).grade = "A" ↔
      90 ≤ (analyze_dataset_smart df file_issues).total_score) ∧
    ((analyze_dataset_smart df file_issues).grade = "B" ↔
      80 ≤ (analyze_dataset_smart df file_issues).total_score ∧
        (analyze_dataset_smart df file_issues).total_score < 90) ∧
    ((analyze_dataset_smart df file_issues).grade = "C" ↔
      70 ≤ (analyze_dataset_smart df file_issues).total_score ∧
        (analyze_dataset_smart df file_issues).total_score < 80) ∧
    ((analyze_dataset_smart df file_issues).grade = "D" ↔
      60 ≤ (analyze_dataset_smart df file_issues).total_score ∧
        (analyze_dataset_smart df file_issues).total_score < 70) ∧
    ((analyze_dataset_smart df file_issues).grade = "F" ↔
      (analyze_dataset_smart df file_issues).total_score < 60) := by
  have hpen : (0:ℚ) ≤ (issue_penalty file_issues : ℚ) := by positivity
  have hbase := base_score_le_100 df
  have hg := get_score_grade_bands
    (max (calculate_base_quality_score df - (issue_penalty file_issues : ℚ)) 0)
  simp only [analyze_dataset_smart]
  refine ⟨?_, ?_, ?_, ?_, ?_, ?_, ?_, ?_⟩
  · trivial
  · exact le_max_right _ _
  · exact max_le (by linarith) (by norm_num)
  · exact hg.1
  · exact hg.2.1
  · exact hg.2.2.1
  · exact hg.2.2.2.1
  · exact hg.2.2.2.2

/-- C1 counterexample: for the package-json input declared as csv the
source records two issues — the medium extension mismatch and the
info-severity config-file issue — so analyze_dataset_smart computes an
issue penalty of 6 (5 + 1), refuting the claimed penalty of 5. -/
theorem C1_counterexample :
    exceptToOption (smartFileParser c1content ".csv") = some c1expected ∧
    issue_penalty c1expected.issues = 6 ∧
    issue_penalty c1expected.issues ≠ 5 := by decide

/-- C1 (amended): the input is detected as structured-object (json), one
row is produced, a medium extension-mismatch issue is recorded, and the
issue penalty is 6: the medium mismatch contributes 5 and the additional
info-severity config-file-detected issue contributes 1. -/
theorem C1_package_json_as_csv :
    exceptToOption (smartFileParser c1content ".csv") = some c1expected ∧
    c1expected.info.actual_content_type = "json" ∧
    c1expected.df.nrows = 1 ∧
    (∃ i ∈ c1expected.issues, i.type = "extension_mismatch" ∧ i.severity = Severity.medium) ∧
    issue_penalty c1expected.issues = 6 := by decide

/-- C3 counterexample: the empty input does not fail — the line fallback
splits the empty text into one blank line and the parser returns a
one-row table, refuting the claim that empty input always raises
ParseError. -/
theorem C3_counterexample :
    exceptToOption (smartFileParser "" ".csv") =
      some ⟨fallbackTable "".toList, ⟨1, 4, "csv", "text", true, 0⟩,
            [fallbackParsingIssue]⟩ := by decide

/-- C3 (amended): for every declared extension other than the legacy
word-processor one, empty input is not an error: the line fallback yields
a one-row table (a single blank line) with the medium fallback issue; the
final no-data guard never fires. -/
theorem C3_empty_input_fallback (ext : String) (hdoc : ext ≠ ".doc") :
    ∃ out, smartFileParser "" ext = Except.ok out ∧
      out.df.nrows = 1 ∧
      out.info.actual_content_type = "text" ∧
      out.df.cols.map Column.name = ["line_number", "content", "char_count", "is_empty"] ∧
      out.issues = [fallbackParsingIssue] := by
  refine ⟨_, smartFileParser_fallback "" ext rfl rfl hdoc, rfl, rfl, rfl, rfl⟩

/-- C3 witness: the amended statement at the delimited-text extension. -/
theorem C3_witness :
    ∃ out, smartFileParser "" ".csv" = Except.ok out ∧
      out.df.nrows = 1 ∧
      out.info.actual_content_type = "text" ∧
      out.df.cols.map Column.name = ["line_number", "content", "char_count", "is_empty"] ∧
      out.issues = [fallbackParsingIssue] :=
  C3_empty_input_fallback ".csv" (by decide)

/-- C4 counterexample: c4df has one flagged row whose squared deviation
(902500) exceeds 9 times the maximal sample variance (9 · 50000), so the
spec rule classifies it critical, yet the live code reports critical = 0
(it computes int(0.4 · total) and performs no per-row classification). -/
theorem C4_counterexample :
    (detect_anomalies c4pred c4df).total_anomalies = 1 ∧
    specCriticalCount c4pred c4df = 1 ∧
    (detect_anomalies c4pred c4df).critical = 0 ∧
    (detect_anomalies c4pred c4df).critical ≠ specCriticalCount c4pred c4df := by decide

/-- C4 (amended): flagged rows are not classified individually; for every
frame and every flag assignment the report has critical =
floor(0.4 · total) = total · 2 / 5 and moderate = total − critical,
independent of any deviation rule. -/
theorem C4_count_based_severity (isoPredict : ℕ → Bool) (df : DataFrame) :
    (detect_anomalies isoPredict df).critical =
      (detect_anomalies isoPredict df).total_anomalies * 2 / 5 ∧
    (detect_anomalies isoPredict df).moderate =
      (detect_anomalies isoPredict df).total_anomalies -
        (detect_anomalies isoPredict df).critical := by
  simp only [detect_anomalies_def]
  split_ifs <;> exact ⟨rfl, rfl⟩

/-- C5: with no numeric column or with fewer than 10 rows the detector
returns the zero-anomaly report; it never raises (the embedding is a
total function, matching the try/except of the source that converts any
exception into the same zero report). -/
theorem C5_insufficient_data_zero (isoPredict : ℕ → Bool) (df : DataFrame)
    (h : (selectNumericFilled df).cols = [] ∨ df.nrows < 10) :
    detect_anomalies isoPredict df = anomalyZeroReport :=
  detect_anomalies_zero_of_insufficient isoPredict df h

/-- C5 witness: a 3-row frame with one numeric column gets the zero
report even when the predictor would flag every row. -/
theorem C5_witness :
    detect_anomalies (fun _ => true) c5df = anomalyZeroReport :=
  C5_insufficient_data_zero (fun _ => true) c5df (Or.inr (by decide))

/-- C6: analyze_bias flags exactly the columns whose dominant normalized
share exceeds 0.8, each with its rendered dominant value and
round(share·100, 1); the overall score is max(100 − 10·flagged, 0); and a
column whose single value occupies 85 percent of its non-null cells is
flagged with recorded share 85.0, i.e. the fraction 0.85 as a
percentage. -/
theorem C6_bias_flags (df : DataFrame) :
    (analyze_bias df).overall_bias_score =
      max (100 - 10 * (((analyze_bias df).imbalanced_fields).length : ℚ)) 0 ∧
    (analyze_bias df).bias_issues =
      ((analyze_bias df).imbalanced_fields).map (fun f => f.field) ∧
    (analyze_bias df).imbalanced_fields =
      df.cols.filterMap (fun c =>
        match vcTop c.cells with
        | none => none
        | some (v, n) =>
          if ((n : ℚ) / (nonNullCount c : ℚ)) > 8/10 then
            some ⟨c.name, pyStrOfCell v, round1 ((n : ℚ) / (nonNullCount c : ℚ) * 100)⟩
          else none) ∧
    (∀ c ∈ df.cols, ∀ v n, vcTop c.cells = some (v, n) →
      20 * n = 17 * nonNullCount c → 0 < nonNullCount c →
      c.name ∈ (analyze_bias df).bias_issues ∧
      (⟨c.name, pyStrOfCell v, 85⟩ : BiasFlag) ∈ (analyze_bias df).imbalanced_fields) := by
  refine ⟨rfl, rfl, rfl, ?_⟩
  intro c hc v n hvc h17 hpos
  have hposQ : (0:ℚ) < (nonNullCount c : ℚ) := by exact_mod_cast hpos
  have hshare : ((n : ℚ) / (nonNullCount c : ℚ)) = 17/20 := by
    rw [div_eq_iff (ne_of_gt hposQ)]
    have hc17 : (20:ℚ) * (n : ℚ) = 17 * (nonNullCount c : ℚ) := by exact_mod_cast h17
    linarith
  have h85 : round1 ((17:ℚ)/20 * 100) = 85 := by decide
  have hmem : (⟨c.name, pyStrOfCell v, 85⟩ : BiasFlag) ∈ (analyze_bias df).imbalanced_fields := by
    apply List.mem_filterMap.mpr
    refine ⟨c, hc, ?_⟩
    simp only [hvc, hshare]
    rw [if_pos (by norm_num : (17:ℚ)/20 > 8/10), h85]
  refine ⟨?_, hmem⟩
  have hmap : (analyze_bias df).bias_issues =
      ((analyze_bias df).imbalanced_fields).map (fun f => f.field) := rfl
  rw [hmap]
  exact List.mem_map.mpr ⟨⟨c.name, pyStrOfCell v, 85⟩, hmem, rfl⟩

/-- C6 witness: the 85-percent column of c6df is flagged with recorded
share 85.0 and appears among the bias issues. -/
theorem C6_witness :
    "label" ∈ (analyze_bias c6df).bias_issues ∧
    (⟨"label", "x", 85⟩ : BiasFlag) ∈ (analyze_bias c6df).imbalanced_fields := by
  have h := (C6_bias_flags c6df).2.2.2
    (mkCol "label" ((List.replicate 17 (Cell.str "x")) ++ (List.replicate 3 (Cell.str "y"))))
    (by decide) (Cell.str "x") 17 (by decide) (by decide) (by decide)
  exact ⟨h.1, h.2⟩

/-- C7 counterexample: a frame with an empty column set takes the
df.empty guard of calculate_consistency_score and yields 0, not the
claimed documented default 50. -/
theorem C7_counterexample :
    calculate_consistency_score ⟨[], 0⟩ = 0 ∧ (0 : ℚ) ≠ 50 := by
  exact ⟨rfl, by norm_num⟩

/-- C7 (amended): an empty frame (zero rows or zero columns) scores 0 via
the df.empty guard; the documented default 50 applies to the non-empty
frames contributing no per-column score (every column a text column with
no non-null values); otherwise the score is the 1-decimal-rounded average
of the per-column contributions: a text column with non-null values
contributes (1 − ratio)·100 when its distinct-to-count ratio exceeds 0.8
and a fixed 80 otherwise, and every non-text column contributes a fixed
90. -/
theorem C7_consistency_characterization (df : DataFrame) :
    (df.isEmptyDF = true → calculate_consistency_score df = 0) ∧
    (df.isEmptyDF = false →
      (df.cols.filterMap colConsistency = [] → calculate_consistency_score df = 50) ∧
      (df.cols.filterMap colConsistency ≠ [] →
        calculate_consistency_score df =
          round1 ((df.cols.filterMap colConsistency).sum /
            ((df.cols.filterMap colConsistency).length : ℚ)))) ∧
    (∀ c ∈ df.cols, c.dtype ≠ Dtype.object → colConsistency c = some 90) ∧
    (∀ c ∈ df.cols, c.dtype = Dtype.object → 0 < (nonNullCells c).length →
      colConsistency c =
        some (if ((distinctsInOrder (nonNullCells c)).length : ℚ) /
                ((nonNullCells c).length : ℚ) > 8/10
              then (1 - ((distinctsInOrder (nonNullCells c)).length : ℚ) /
                ((nonNullCells c).length : ℚ)) * 100
              else 80)) ∧
    (∀ c ∈ df.cols, c.dtype = Dtype.object → (nonNullCells c).length = 0 →
      colConsistency c = none) := by
  refine ⟨?_, ?_, ?_, ?_, ?_⟩
  · intro h
    unfold calculate_consistency_score
    rw [if_pos h]
  · intro h
    have hne : ¬(df.isEmptyDF = true) := by rw [h]; exact Bool.false_ne_true
    constructor
    · intro hnil
      unfold calculate_consistency_score
      rw [if_neg hne, if_pos (by rw [hnil]; rfl)]
    · intro hnil
      unfold calculate_consistency_score
      rw [if_neg hne, if_neg (by simpa [List.isEmpty_iff] using hnil)]
  · intro c _ hobj
    simp only [colConsistency]
    rw [if_neg hobj]
  · intro c _ hobj hnn
    simp only [colConsistency]
    rw [if_pos hobj, if_pos hnn]
  · intro c _ hobj hz
    simp only [colConsistency]
    rw [if_pos hobj, if_neg (by omega)]

/-- C7 witness: a non-empty frame whose only column is all-null text
contributes no score and receives the 50 default. -/
theorem C7_witness :
    calculate_consistency_score ⟨[mkCol "a" [Cell.null]], 1⟩ = 50 :=
  ((C7_consistency_characterization ⟨[mkCol "a" [Cell.null]], 1⟩).2.1 (by decide)).1 (by decide)

/-- C8 counterexample: the delimited probe is attempted on c8content (the
comma gate fires) and its parse fails (extra field in row 2), yet the
result carries no issue for the failure — and in particular no
high-severity issue — because the except branch of the source only logs;
the parser falls through to the line fallback. -/
theorem C8_counterexample :
    csvGate (trimL (c8content.toList.take 2000)) = true ∧
    read_csv c8content.toList = none ∧
    exceptToOption (smartFileParser c8content ".txt") =
      some ⟨fallbackTable c8content.toList,
            mkDatasetInfo (fallbackTable c8content.toList) ".txt" "text",
            [fallbackParsingIssue]⟩ ∧
    (∀ i ∈ [fallbackParsingIssue], i.severity ≠ Severity.high) := by decide

/-- C8 (amended): a mid-parse failure of the delimited probe is swallowed
(logged only): no StructuralIssue of any severity is recorded for it, and
for a non-document extension the parser falls through to the line
fallback, still returning a result whose only issue is the medium
fallback issue — no high-severity issue appears. -/
theorem C8_swallowed_probe_failure (contentS : String) (ext : String)
    (hjson : jsonProbe contentS.toList (trimL (contentS.toList.take 2000)) ext = none)
    (hgate : csvGate (trimL (contentS.toList.take 2000)) = true)
    (hfail : read_csv contentS.toList = none)
    (hdoc : ext ≠ ".doc") :
    ∃ out, smartFileParser contentS ext = Except.ok out ∧
      out.issues = [fallbackParsingIssue] ∧
      (∀ i ∈ out.issues, i.severity ≠ Severity.high) := by
  have hcsv : csvProbe contentS.toList (trimL (contentS.toList.take 2000)) ext = none := by
    unfold csvProbe
    rw [if_pos hgate, hfail]
  refine ⟨_, smartFileParser_fallback contentS ext hjson hcsv hdoc, rfl, ?_⟩
  intro i hi
  simp only [List.mem_singleton] at hi
  rw [hi]
  decide

/-- C8 witness: the amended statement at the concrete failing input. -/
theorem C8_witness :
    ∃ out, smartFileParser c8content ".txt" = Except.ok out ∧
      out.issues = [fallbackParsingIssue] ∧
      (∀ i ∈ out.issues, i.severity ≠ Severity.high) :=
  C8_swallowed_probe_failure c8content ".txt" (by decide) (by decide) (by decide) (by decide)

/-- C9: for every non-empty input on which the JSON probe yields nothing,
the delimited probe yields nothing, and the extension is not the legacy
word-processor one, the line fallback succeeds: the parser returns a
non-empty table of at most 1000 rows with columns line_number, content,
char_count, is_blank (source spelling is_empty), and the single recorded
issue is the medium-severity fallback issue. -/
theorem C9_line_fallback (contentS : String) (ext : String)
    (hne : contentS ≠ "")
    (hjson : jsonProbe contentS.toList (trimL (contentS.toList.take 2000)) ext = none)
    (hcsv : csvProbe contentS.toList (trimL (contentS.toList.take 2000)) ext = none)
    (hdoc : ext ≠ ".doc") :
    ∃ out, smartFileParser contentS ext = Except.ok out ∧
      out.df = fallbackTable contentS.toList ∧
      0 < out.df.nrows ∧ out.df.nrows ≤ 1000 ∧
      out.df.cols.map Column.name = ["line_number", "content", "char_count", "is_empty"] ∧
      out.issues = [fallbackParsingIssue] ∧
      fallbackParsingIssue.severity = Severity.medium := by
  refine ⟨_, smartFileParser_fallback contentS ext hjson hcsv hdoc, rfl,
    fallbackTable_nrows_pos _, fallbackTable_nrows_le _, rfl, rfl, rfl⟩

/-- C9 witness: the fallback at a concrete plain-text input. -/
theorem C9_witness :
    ∃ out, smartFileParser "hello" ".txt" = Except.ok out ∧
      out.df = fallbackTable "hello".toList ∧
      0 < out.df.nrows ∧ out.df.nrows ≤ 1000 ∧
      out.df.cols.map Column.name = ["line_number", "content", "char_count", "is_empty"] ∧
      out.issues = [fallbackParsingIssue] ∧
      fallbackParsingIssue.severity = Severity.medium :=
  C9_line_fallback "hello" ".txt" (by decide) (by decide) (by decide) (by decide)

/-- C10: every anomaly report satisfies critical + moderate = total with
critical = floor(0.4 · total) whenever an anomaly is found, the example
list never exceeds 3 entries, and the insufficient-data branch (like the
exception branch encoded in the same zero report) returns all-zero
counts. -/
theorem C10_report_invariants (isoPredict : ℕ → Bool) (df : DataFrame) :
    (detect_anomalies isoPredict df).critical + (detect_anomalies isoPredict df).moderate =
      (detect_anomalies isoPredict df).total_anomalies ∧
    (0 < (detect_anomalies isoPredict df).total_anomalies →
      (detect_anomalies isoPredict df).critical =
        (detect_anomalies isoPredict df).total_anomalies * 2 / 5) ∧
    (detect_anomalies isoPredict df).examples.length ≤ 3 ∧
    ((selectNumericFilled df).cols = [] ∨ df.nrows < 10 →
      detect_anomalies isoPredict df = anomalyZeroReport) := by
  refine ⟨?_, ?_, ?_, detect_anomalies_zero_of_insufficient isoPredict df⟩
  · simp only [detect_anomalies_def]
    split_ifs
    · rfl
    · simp only []
      omega
  · intro _
    simp only [detect_anomalies_def]
    split_ifs
    · rfl
    · rfl
  · simp only [detect_anomalies_def]
    split_ifs
    · simp [anomalyZeroReport]
    · simp only [List.length_map, List.length_take]
      omega

/-- C10 witness: the count split on a 12-row frame with four flagged
rows. -/
theorem C10_witness :
    (detect_anomalies c10pred c10df).critical =
      (detect_anomalies c10pred c10df).total_anomalies * 2 / 5 :=
  (C10_report_invariants c10pred c10df).2.1 (by decide)
